import Mathlib

/-!
Verification of the insights-kafka-monitor service: a shallow embedding of
the consumer lifecycle, message handling path, connectivity check and
configuration loader, together with theorems about their behaviour.

Sources embedded:
  - config.go: ConfigStruct, BrokerConfiguration, LoadConfiguration and the
    accessor functions.
  - the main source file (tryToConnectToKafka, exit status codes).
  - the KafkaConsumer operations (NewConsumer, ProcessMessage, HandleMessage,
    Setup, Cleanup, Close): the implementation file is not part of the
    source tree given here, only its unit tests are, so these operations are
    modelled from the specification with their observable behaviour pinned
    by the assertions of consumer_test.go.

External effects (network connections, the file system consulted by the
viper library, environment-variable unmarshalling) are passed in explicitly
as oracle values, so every definition stays executable.
-/

namespace InsightsKafkaMonitor

/-- Exit code ExitStatusOK from the main source file: the tool finished with
success. The four codes are consecutive iota values starting at 0. -/
def ExitStatusOK : Nat := 0

/-- Exit code ExitStatusError: a general error code. -/
def ExitStatusError : Nat := 1

/-- Exit code ExitStatusConsumerError: returned in case of any
consumer-related error. -/
def ExitStatusConsumerError : Nat := 2

/-- Exit code ExitStatusKafkaError: returned in case of any Kafka-related
error. -/
def ExitStatusKafkaError : Nat := 3

/-- Modulus of the Go uint64 type; the two message counters are uint64
fields and increments wrap at this bound. -/
def uint64Mod : Nat := 18446744073709551616

/-- BrokerConfiguration from config.go: configuration for the broker. -/
structure BrokerConfiguration where
  address : String
  topic : String
  group : String
  enabled : Bool
deriving DecidableEq, Repr

/-- LoggingConfiguration from config.go: configuration for logging. -/
structure LoggingConfiguration where
  debug : Bool
  logLevel : String
deriving DecidableEq, Repr

/-- OutputConfiguration from config.go: configures which log messages to
use. -/
structure OutputConfiguration where
  verbose : Bool
deriving DecidableEq, Repr

/-- ConfigStruct from config.go: the whole service configuration. -/
structure ConfigStruct where
  broker : BrokerConfiguration
  logging : LoggingConfiguration
  output : OutputConfiguration
deriving DecidableEq, Repr

/-- GetBrokerConfiguration from config.go: returns the broker
configuration sub-tree. -/
def GetBrokerConfiguration (config : ConfigStruct) : BrokerConfiguration :=
  config.broker

/-- GetLoggingConfiguration from config.go: returns the logging
configuration sub-tree. -/
def GetLoggingConfiguration (config : ConfigStruct) : LoggingConfiguration :=
  config.logging

/-- GetOutputConfiguration from config.go: returns the output
configuration sub-tree. -/
def GetOutputConfiguration (config : ConfigStruct) : OutputConfiguration :=
  config.output

/-- A sarama.ConsumerMessage as consumed by the monitor: an opaque byte
payload (Value) plus topic, partition and offset metadata. -/
structure ConsumerMessage where
  value : List Nat
  topic : String
  partition : Int
  offset : Int
deriving DecidableEq, Repr

/-- Modelled from the spec: the KafkaConsumer entity (its implementation
file is absent from the given sources; the field list follows the spec and
the dummy-consumer construction in consumer_test.go). It holds the broker
configuration, the optional underlying consumer-group client handle, the
two uint64 message counters, the readiness gate (false = open / not ready,
true = closed / ready), the verbosity flag, the optional cancellation
handle registered by Serve, and flags recording whether cancellation has
been signalled and whether the client connection has been closed. -/
structure KafkaConsumer where
  configuration : BrokerConfiguration
  consumerGroup : Option Unit
  numberOfSuccessfullyConsumedMessages : Nat
  numberOfErrorsConsumingMessages : Nat
  ready : Bool
  verbose : Bool
  cancel : Option Unit
  cancelled : Bool
  clientClosed : Bool
deriving DecidableEq, Repr

/-- Modelled from the spec: NewConsumer constructs a KafkaConsumer. It
attempts to establish the underlying consumer-group client for the broker
addresses of the configuration; that external transport attempt is passed
in as clientResult. On failure the transport error is returned and no
consumer is produced (construction either fully succeeds or yields
nothing); on success a consumer with both counters at zero, an open
readiness gate and no cancellation handle is returned, as pinned by
TestNewConsumerBadBroker and TestNewConsumerLocalBroker. -/
def NewConsumer (brokerCfg : BrokerConfiguration) (verbose : Bool)
    (clientResult : Except String Unit) : Except String KafkaConsumer :=
  match clientResult with
  | Except.error err => Except.error err
  | Except.ok client =>
      Except.ok
        { configuration := brokerCfg
          consumerGroup := some client
          numberOfSuccessfullyConsumedMessages := 0
          numberOfErrorsConsumingMessages := 0
          ready := false
          verbose := verbose
          cancel := none
          cancelled := false
          clientClosed := false }

/-- Modelled from the spec: ProcessMessage only classifies a message; in
the baseline scope it never fails and, as pinned by TestProcessEmptyMessage
and TestProcessCorrectMessage, it touches neither counter: both counters
read zero before and after the call in those tests. It returns the
(unchanged) consumer together with no error for every payload. -/
def ProcessMessage (consumer : KafkaConsumer) (_msg : ConsumerMessage) :
    KafkaConsumer × Option String :=
  (consumer, none)

/-- Modelled from the spec: HandleMessage is the handling path invoked for
each delivered message. A nil message is a no-op; otherwise it runs
ProcessMessage and increments exactly one counter — the error counter when
an error was reported, the success counter otherwise — as pinned by
TestHandleNilMessage, TestHandleEmptyMessage and TestHandleCorrectMessage.
The counters are uint64, so the increment wraps at uint64Mod. -/
def HandleMessage (consumer : KafkaConsumer) (msg : Option ConsumerMessage) :
    KafkaConsumer :=
  match msg with
  | none => consumer
  | some m =>
      let r := ProcessMessage consumer m
      match r.2 with
      | some _ =>
          { r.1 with
            numberOfErrorsConsumingMessages :=
              (r.1.numberOfErrorsConsumingMessages + 1) % uint64Mod }
      | none =>
          { r.1 with
            numberOfSuccessfullyConsumedMessages :=
              (r.1.numberOfSuccessfullyConsumedMessages + 1) % uint64Mod }

/-- Delivering a whole sequence of (non-nil) messages to the handling
path, in order. -/
def handleAll (consumer : KafkaConsumer) (msgs : List ConsumerMessage) :
    KafkaConsumer :=
  msgs.foldl (fun acc m => HandleMessage acc (some m)) consumer

/-- Modelled from the spec: Setup is invoked by the group runtime when a
new session is set up; it closes the readiness gate — an at-most-once,
idempotent externally observable effect (the spec requires that a second
invocation neither panics nor reopens the gate) — and returns no error, as
pinned by TestConsumerSetup. -/
def Setup (consumer : KafkaConsumer) : KafkaConsumer × Option String :=
  ({ consumer with ready := true }, none)

/-- Modelled from the spec: Cleanup is invoked once the session ends; it
has no required side effect and returns no error, as pinned by
TestConsumerCleanup. -/
def Cleanup (consumer : KafkaConsumer) : KafkaConsumer × Option String :=
  (consumer, none)

/-- Modelled from the spec: Close triggers cancellation when a cancellation
handle is registered (a legal no-op when none is, e.g. when Serve was never
started), closes the underlying group client when one is present, and
returns no error, as pinned by TestConsumerClose and
TestConsumerCloseCancel. -/
def Close (consumer : KafkaConsumer) : KafkaConsumer × Option String :=
  let afterCancel :=
    match consumer.cancel with
    | some _ => { consumer with cancelled := true }
    | none => consumer
  let afterClientClose :=
    match afterCancel.consumerGroup with
    | some _ => { afterCancel with clientClosed := true }
    | none => afterCancel
  (afterClientClose, none)

/-- The dummy consumer constructed by NewDummyConsumer in consumer_test.go:
address localhost:1234, topic and group names, verbose, a fresh (open)
readiness gate, no consumer group and no cancellation handle. -/
def NewDummyConsumer : KafkaConsumer :=
  { configuration :=
      { address := "localhost:1234"
        topic := "topic"
        group := "group"
        enabled := false }
    consumerGroup := none
    numberOfSuccessfullyConsumedMessages := 0
    numberOfErrorsConsumingMessages := 0
    ready := false
    verbose := true
    cancel := none
    cancelled := false
    clientClosed := false }

/-- An empty-payload message, as built in TestHandleEmptyMessage. -/
def emptyMessage : ConsumerMessage :=
  { value := [], topic := "", partition := 0, offset := 0 }

/-- A sarama broker handle as observed by tryToConnectToKafka: the outcome
of Open (some transport error, or none on success) and the outcome of the
Connected query (an error, or the connected flag). Both are external
network effects, so they are supplied as oracle data. -/
structure Broker where
  openResult : Option String
  connectedResult : Except String Bool
deriving Repr

/-- tryToConnectToKafka from the main source file: builds a broker for the
configured address, opens the connection and queries the connected flag.
Any error from Open or Connected yields ExitStatusKafkaError together with
that error; a connected flag of false yields ExitStatusConsumerError with
the (nil) error from the Connected query; otherwise the check succeeds with
ExitStatusOK and no error. The external broker construction is supplied as
the newBroker oracle, keyed on the broker address. -/
def tryToConnectToKafka (newBroker : String → Broker) (config : ConfigStruct) :
    Nat × Option String :=
  let brokerConfiguration := GetBrokerConfiguration config
  let broker := newBroker brokerConfiguration.address
  match broker.openResult with
  | some err => (ExitStatusKafkaError, some err)
  | none =>
      match broker.connectedResult with
      | Except.error err => (ExitStatusKafkaError, some err)
      | Except.ok connected =>
          if connected then (ExitStatusOK, none)
          else (ExitStatusConsumerError, none)

/-- filepath.Split from the Go standard library as used by
LoadConfiguration: splits a path immediately after the final slash,
returning the directory part (including the trailing slash) and the file
name part. -/
def filepathSplit (path : String) : String × String :=
  let cs := path.toList
  let base := (cs.reverse.takeWhile (fun c => c ≠ '/')).reverse
  let dir := cs.take (cs.length - base.length)
  (String.mk dir, String.mk base)

/-- filepath.Ext from the Go standard library: the suffix of the path
starting at the final dot of the final path element, including the dot
itself; empty when the final element has no dot. -/
def filepathExt (path : String) : String :=
  let finalRev := path.toList.reverse.takeWhile (fun c => c ≠ '/')
  let afterDot := finalRev.takeWhile (fun c => c ≠ '.')
  if afterDot.length = finalRev.length then ""
  else String.mk ('.' :: afterDot.reverse)

/-- strings.TrimSuffix from the Go standard library: removes the given
suffix from the string when present, otherwise returns the string
unchanged. -/
def trimSuffix (s suffix : String) : String :=
  if s.endsWith suffix then String.mk (s.toList.take (s.toList.length - suffix.toList.length))
  else s

/-- Outcome of viper.ReadInConfig: success, the dedicated
ConfigFileNotFoundError (carrying its message), or any other error such as
a parse failure. -/
inductive ReadInConfigResult where
  | ok
  | configFileNotFoundError (msg : String)
  | otherError (msg : String)
deriving DecidableEq, Repr

/-- The external world consulted by LoadConfiguration: the result of
looking up the config-file environment variable, the result of
viper.ReadInConfig as a function of the configured name and search path,
and the results of viper.Unmarshal — one for the state where a real config
file was read (then merged with environment variables), one for the
fallback state where only the fake empty TOML config and the environment
variables are present. -/
structure ViperWorld where
  lookupEnv : Option String
  readInConfig : String → String → ReadInConfigResult
  unmarshalFileEnv : Except String ConfigStruct
  unmarshalEnvOnly : Except String ConfigStruct

/-- LoadConfiguration from config.go. When the config-file environment
variable is set, the named file's directory and extension-stripped base
name are handed to viper; otherwise the default config file name is looked
up in the current directory. A ConfigFileNotFoundError is tolerated — by
falling back to an encoded fake TOML config plus environment variables —
only when the environment variable was NOT set; in every other error case
a fatal-error value wrapping the viper error is returned. The TOML
encoding of the zero-value config and the re-read of that constant fake
config are deterministic operations on constant data that cannot fail, so
they are not given failure oracles. -/
def LoadConfiguration (w : ViperWorld) (defaultConfigFile : String) :
    Except String ConfigStruct :=
  let specified := w.lookupEnv.isSome
  let readResult :=
    match w.lookupEnv with
    | some configFile =>
        let dirBase := filepathSplit configFile
        let file := trimSuffix dirBase.2 (filepathExt dirBase.2)
        w.readInConfig file dirBase.1
    | none => w.readInConfig defaultConfigFile "."
  match readResult with
  | ReadInConfigResult.ok => w.unmarshalFileEnv
  | ReadInConfigResult.configFileNotFoundError msg =>
      if specified then
        Except.error (String.append "fatal error config file: " msg)
      else w.unmarshalEnvOnly
  | ReadInConfigResult.otherError msg =>
      Except.error (String.append "fatal error config file: " msg)

/-- The well-formed JSON payload used by TestProcessCorrectMessage and the
scenario of the spec, as raw bytes. -/
def wellFormedMessage : ConsumerMessage :=
  { value := [123, 34, 102, 111, 111, 34, 58, 32, 34, 98, 97, 114, 34, 125]
    topic := "topic", partition := 0, offset := 1 }

/-- The malformed (truncated JSON) payload used by
TestHandleCorrectMessage, as raw bytes. -/
def malformedMessage : ConsumerMessage :=
  { value := [91, 52, 50], topic := "topic", partition := 0, offset := 2 }

/-- The sarama error message asserted by TestNewConsumerBadBroker when the
broker address set is unreachable. -/
def saramaNoBrokersError : String :=
  "kafka: client has run out of available brokers to talk to (Is your cluster reachable?)"

/-- The invalid broker configuration of TestNewConsumerBadBroker: an empty
address string. -/
def badBrokerConfiguration : BrokerConfiguration :=
  { address := "", topic := "whatever", group := "whatever", enabled := true }

/-- A complete configuration value around badBrokerConfiguration, used to
exercise the connectivity check. -/
def sampleConfig : ConfigStruct :=
  { broker := badBrokerConfiguration
    logging := { debug := false, logLevel := "" }
    output := { verbose := true } }

/-- A broker whose Open call fails with a transport error. -/
def failedOpenBroker : Broker :=
  { openResult := some "connection refused", connectedResult := Except.ok false }

/-- The zero value of ConfigStruct, as produced by var config ConfigStruct
in Go. -/
def emptyConfigStruct : ConfigStruct :=
  { broker := { address := "", topic := "", group := "", enabled := false }
    logging := { debug := false, logLevel := "" }
    output := { verbose := false } }

/-- The viper not-found message asserted by the configuration tests for the
file named in the environment variable. -/
def notFoundMsg : String :=
  "Config File \"non existing file\" Not Found in \"[]\""

/-- A ViperWorld where the config-file environment variable names a file
that cannot be found, while reading any config file reports not-found and
unmarshalling would succeed with the zero configuration. -/
def missingEnvFileWorld : ViperWorld :=
  { lookupEnv := some "non existing file"
    readInConfig := fun _ _ => ReadInConfigResult.configFileNotFoundError notFoundMsg
    unmarshalFileEnv := Except.ok emptyConfigStruct
    unmarshalEnvOnly := Except.ok emptyConfigStruct }

/-- Delivering any list of messages leaves the error counter unchanged and
advances the success counter by the list length, modulo the uint64 wrap,
because the baseline ProcessMessage classifies every message as a
success. -/
theorem handleAll_counts (msgs : List ConsumerMessage) (c : KafkaConsumer)
    (h : c.numberOfSuccessfullyConsumedMessages < uint64Mod) :
    (handleAll c msgs).numberOfSuccessfullyConsumedMessages
        = (c.numberOfSuccessfullyConsumedMessages + msgs.length) % uint64Mod ∧
    (handleAll c msgs).numberOfErrorsConsumingMessages
        = c.numberOfErrorsConsumingMessages := by
  induction msgs generalizing c with
  | nil =>
      simpa [handleAll] using (Nat.mod_eq_of_lt h).symm
  | cons m ms ih =>
      have hfold : handleAll c (m :: ms)
          = handleAll (HandleMessage c (some m)) ms := rfl
      have hstep : HandleMessage c (some m)
          = { c with numberOfSuccessfullyConsumedMessages :=
                (c.numberOfSuccessfullyConsumedMessages + 1) % uint64Mod } := rfl
      have hlt : (c.numberOfSuccessfullyConsumedMessages + 1) % uint64Mod
          < uint64Mod := Nat.mod_lt _ (by decide)
      obtain ⟨ihs, ihe⟩ :=
        ih { c with numberOfSuccessfullyConsumedMessages :=
              (c.numberOfSuccessfullyConsumedMessages + 1) % uint64Mod } hlt
      constructor
      · rw [hfold, hstep, ihs]
        show ((c.numberOfSuccessfullyConsumedMessages + 1) % uint64Mod
            + ms.length) % uint64Mod = _
        rw [Nat.mod_add_mod]
        congr 1
        simp [List.length_cons]
        omega
      · rw [hfold, hstep, ihe]

/-- C1: for every sequence of N non-nil messages delivered to the handling
path (HandleMessage), starting from a consumer with zero counters, after
the last call completes successCount + errorCount equals N; under the
baseline policy errorCount equals 0 and successCount equals N, for any mix
of well-formed, empty and malformed payloads (N below the uint64 bound);
in particular, handling a single empty-payload message increments the
success counter by exactly 1 and the error counter by 0. -/
theorem HandleMessage_counts_sequence (c : KafkaConsumer)
    (msgs : List ConsumerMessage) (em : ConsumerMessage)
    (hs : c.numberOfSuccessfullyConsumedMessages = 0)
    (he : c.numberOfErrorsConsumingMessages = 0)
    (hn : msgs.length < uint64Mod)
    (_hv : em.value = []) :
    (handleAll c msgs).numberOfSuccessfullyConsumedMessages
        + (handleAll c msgs).numberOfErrorsConsumingMessages = msgs.length ∧
    (handleAll c msgs).numberOfErrorsConsumingMessages = 0 ∧
    (handleAll c msgs).numberOfSuccessfullyConsumedMessages = msgs.length ∧
    (HandleMessage c (some em)).numberOfSuccessfullyConsumedMessages = 1 ∧
    (HandleMessage c (some em)).numberOfErrorsConsumingMessages = 0 := by
  have h0 : c.numberOfSuccessfullyConsumedMessages < uint64Mod := by
    rw [hs]; decide
  obtain ⟨h1, h2⟩ := handleAll_counts msgs c h0
  rw [hs, Nat.zero_add, Nat.mod_eq_of_lt hn] at h1
  rw [he] at h2
  have h3 : (HandleMessage c (some em)).numberOfSuccessfullyConsumedMessages
      = 1 := by
    show (c.numberOfSuccessfullyConsumedMessages + 1) % uint64Mod = 1
    rw [hs]
    decide
  have h4 : (HandleMessage c (some em)).numberOfErrorsConsumingMessages
      = 0 := by
    show c.numberOfErrorsConsumingMessages = 0
    exact he
  exact ⟨by rw [h1, h2, Nat.add_zero], h2, h1, h3, h4⟩

/-- C1 witness: delivering the well-formed, empty and malformed test
payloads to the dummy consumer yields success 3, errors 0; one empty
message yields success 1, errors 0. -/
theorem HandleMessage_counts_sequence_witness :
    (handleAll NewDummyConsumer
        [wellFormedMessage, emptyMessage, malformedMessage]).numberOfSuccessfullyConsumedMessages
      + (handleAll NewDummyConsumer
        [wellFormedMessage, emptyMessage, malformedMessage]).numberOfErrorsConsumingMessages
      = 3 ∧
    (handleAll NewDummyConsumer
        [wellFormedMessage, emptyMessage, malformedMessage]).numberOfErrorsConsumingMessages = 0 ∧
    (handleAll NewDummyConsumer
        [wellFormedMessage, emptyMessage, malformedMessage]).numberOfSuccessfullyConsumedMessages = 3 ∧
    (HandleMessage NewDummyConsumer
        (some emptyMessage)).numberOfSuccessfullyConsumedMessages = 1 ∧
    (HandleMessage NewDummyConsumer
        (some emptyMessage)).numberOfErrorsConsumingMessages = 0 :=
  HandleMessage_counts_sequence NewDummyConsumer
    [wellFormedMessage, emptyMessage, malformedMessage] emptyMessage
    rfl rfl (by decide) rfl

/-- C2: a nil message passed to the handling path is a no-op —
HandleMessage returns the consumer unchanged (in particular neither
counter is incremented), and, being a total function, it neither panics
nor fails. -/
theorem HandleMessage_nil_noop (c : KafkaConsumer) :
    HandleMessage c none = c := rfl

/-- C3 counterexample: processing the empty-payload message on the fresh
dummy consumer emits zero counter increments — both counters still read 0
after the call — refuting the claim that every ProcessMessage call emits
exactly one counter increment and that an empty payload increments the
success counter there (exactly what TestProcessEmptyMessage asserts). -/
theorem ProcessMessage_no_increment_cex :
    (ProcessMessage NewDummyConsumer
        emptyMessage).1.numberOfSuccessfullyConsumedMessages = 0 ∧
    (ProcessMessage NewDummyConsumer
        emptyMessage).1.numberOfErrorsConsumingMessages = 0 ∧
    (ProcessMessage NewDummyConsumer emptyMessage).2 = none :=
  ⟨rfl, rfl, rfl⟩

/-- C3 (amended): ProcessMessage only classifies — it returns the consumer
unchanged (no counter increment) and no error; the exactly-one-increment
contract is kept by the handling path: each HandleMessage call on a
non-nil message emits exactly one counter increment, and in particular a
message with an empty payload (like any other payload in the baseline
policy) increments the success counter there. -/
theorem ProcessMessage_classifies_only (c : KafkaConsumer)
    (m : ConsumerMessage)
    (h : c.numberOfSuccessfullyConsumedMessages + 1 < uint64Mod) :
    (ProcessMessage c m).1 = c ∧
    (ProcessMessage c m).2 = none ∧
    (HandleMessage c (some m)).numberOfSuccessfullyConsumedMessages
        = c.numberOfSuccessfullyConsumedMessages + 1 ∧
    (HandleMessage c (some m)).numberOfErrorsConsumingMessages
        = c.numberOfErrorsConsumingMessages := by
  refine ⟨rfl, rfl, ?_, rfl⟩
  show (c.numberOfSuccessfullyConsumedMessages + 1) % uint64Mod = _
  exact Nat.mod_eq_of_lt h

/-- C3 witness: at the dummy consumer and the empty-payload message the
classification-only behaviour and the single increment through the
handling path are observed concretely. -/
theorem ProcessMessage_classifies_only_witness :
    (ProcessMessage NewDummyConsumer emptyMessage).1 = NewDummyConsumer ∧
    (ProcessMessage NewDummyConsumer emptyMessage).2 = none ∧
    (HandleMessage NewDummyConsumer
        (some emptyMessage)).numberOfSuccessfullyConsumedMessages
      = NewDummyConsumer.numberOfSuccessfullyConsumedMessages + 1 ∧
    (HandleMessage NewDummyConsumer
        (some emptyMessage)).numberOfErrorsConsumingMessages
      = NewDummyConsumer.numberOfErrorsConsumingMessages :=
  ProcessMessage_classifies_only NewDummyConsumer emptyMessage (by decide)

/-- C4: for every input message payload — empty, malformed or well-formed —
ProcessMessage returns no error: in the baseline scope processing never
produces a processing error, it only classifies. -/
theorem ProcessMessage_never_errors (c : KafkaConsumer)
    (m : ConsumerMessage) : (ProcessMessage c m).2 = none := rfl

/-- C5: construction is all-or-nothing — whenever establishing the
underlying consumer-group client for the configured broker addresses fails
with a transport error (the unreachable-address case), NewConsumer returns
exactly that error and no consumer value at all, never a usable-looking
KafkaConsumer. -/
theorem NewConsumer_all_or_nothing (brokerCfg : BrokerConfiguration)
    (verbose : Bool) (clientResult : Except String Unit) (err : String)
    (h : clientResult = Except.error err) :
    NewConsumer brokerCfg verbose clientResult = Except.error err ∧
    ∀ consumer : KafkaConsumer,
      NewConsumer brokerCfg verbose clientResult ≠ Except.ok consumer := by
  subst h
  exact ⟨rfl, fun consumer hc => Except.noConfusion hc⟩

/-- C5 witness: for the empty-address configuration of
TestNewConsumerBadBroker and the sarama no-brokers transport error,
NewConsumer returns that error (and hence no consumer). -/
theorem NewConsumer_all_or_nothing_witness :
    NewConsumer badBrokerConfiguration true (Except.error saramaNoBrokersError)
      = Except.error saramaNoBrokersError :=
  (NewConsumer_all_or_nothing badBrokerConfiguration true
    (Except.error saramaNoBrokersError) saramaNoBrokersError rfl).1

/-- C6: Close is idempotent and safe on an unserved consumer — for every
consumer (whether or not a cancellation handle is registered, so in
particular when the consumer was constructed but Serve never started) Close
returns no error, and a second Close call also returns no error and leaves
both counters exactly as they were. Totality of the function gives
panic-freedom. -/
theorem Close_idempotent (c : KafkaConsumer) :
    (Close c).2 = none ∧
    (Close (Close c).1).2 = none ∧
    (Close (Close c).1).1.numberOfSuccessfullyConsumedMessages
        = c.numberOfSuccessfullyConsumedMessages ∧
    (Close (Close c).1).1.numberOfErrorsConsumingMessages
        = c.numberOfErrorsConsumingMessages := by
  refine ⟨rfl, rfl, ?_, ?_⟩ <;>
    cases hc : c.cancel <;> cases hg : c.consumerGroup <;>
      simp [Close, hc, hg]

/-- C7: after Setup is invoked once the readiness gate reports ready, and
invoking Setup a second time on the same consumer (a simulated rebalance)
returns no error and leaves the gate in the ready state — the gate close is
an at-most-once, idempotent effect, and totality of the function gives
panic-freedom. -/
theorem Setup_ready_idempotent (c : KafkaConsumer) :
    (Setup c).2 = none ∧
    (Setup c).1.ready = true ∧
    (Setup (Setup c).1).2 = none ∧
    (Setup (Setup c).1).1.ready = true :=
  ⟨rfl, rfl, rfl, rfl⟩

/-- C8: the explicit connectivity check returns (ExitStatusOK, no error)
exactly when Open succeeds and the broker reports connected; an error from
Open or from the Connected query yields ExitStatusKafkaError with that
error; a connected flag of false yields ExitStatusConsumerError; and
whenever the check does not fully succeed the resulting status is
non-zero, hence distinguishable from ExitStatusOK. -/
theorem tryToConnectToKafka_outcomes (newBroker : String → Broker)
    (config : ConfigStruct) :
    (tryToConnectToKafka newBroker config = (ExitStatusOK, none) ↔
      (newBroker (GetBrokerConfiguration config).address).openResult = none ∧
      (newBroker (GetBrokerConfiguration config).address).connectedResult
        = Except.ok true) ∧
    (∀ e, (newBroker (GetBrokerConfiguration config).address).openResult
        = some e →
      tryToConnectToKafka newBroker config = (ExitStatusKafkaError, some e)) ∧
    (∀ e, (newBroker (GetBrokerConfiguration config).address).openResult
        = none →
      (newBroker (GetBrokerConfiguration config).address).connectedResult
        = Except.error e →
      tryToConnectToKafka newBroker config = (ExitStatusKafkaError, some e)) ∧
    ((newBroker (GetBrokerConfiguration config).address).openResult = none →
      (newBroker (GetBrokerConfiguration config).address).connectedResult
        = Except.ok false →
      tryToConnectToKafka newBroker config = (ExitStatusConsumerError, none)) ∧
    (¬((newBroker (GetBrokerConfiguration config).address).openResult = none ∧
        (newBroker (GetBrokerConfiguration config).address).connectedResult
          = Except.ok true) →
      (tryToConnectToKafka newBroker config).1 ≠ 0) := by
  cases h1 : (newBroker (GetBrokerConfiguration config).address).openResult with
  | some e1 =>
      refine ⟨?_, ?_, ?_, ?_, ?_⟩ <;>
        simp [tryToConnectToKafka, h1, ExitStatusOK, ExitStatusKafkaError,
          ExitStatusConsumerError]
  | none =>
      cases h2 : (newBroker (GetBrokerConfiguration config).address).connectedResult with
      | error e2 =>
          refine ⟨?_, ?_, ?_, ?_, ?_⟩ <;>
            simp [tryToConnectToKafka, h1, h2, ExitStatusOK,
              ExitStatusKafkaError, ExitStatusConsumerError]
      | ok connected =>
          cases connected <;>
            refine ⟨?_, ?_, ?_, ?_, ?_⟩ <;>
              simp [tryToConnectToKafka, h1, h2, ExitStatusOK,
                ExitStatusKafkaError, ExitStatusConsumerError]

/-- C8 witness: a broker whose Open call fails with a transport error makes
the connectivity check return ExitStatusKafkaError together with that
error. -/
theorem tryToConnectToKafka_outcomes_witness :
    tryToConnectToKafka (fun _ => failedOpenBroker) sampleConfig
      = (ExitStatusKafkaError, some "connection refused") :=
  (tryToConnectToKafka_outcomes (fun _ => failedOpenBroker)
    sampleConfig).2.1 "connection refused" rfl

/-- C10: LoadConfiguration treats a missing configuration file
asymmetrically. When the config-file environment variable is set but viper
reports the named file as not found, a fatal-error value is returned — this
holds for any world, in particular regardless of whether the default config
file exists, since the default name is never consulted in that branch. When
the environment variable is unset and the default config file is not found,
the fallback path is taken and the call succeeds with the configuration
unmarshalled from environment variables alone. -/
theorem LoadConfiguration_missing_file_asymmetry (w : ViperWorld)
    (defaultConfigFile envFile msg : String) (cfg : ConfigStruct) :
    (w.lookupEnv = some envFile →
      w.readInConfig
          (trimSuffix (filepathSplit envFile).2
            (filepathExt (filepathSplit envFile).2))
          (filepathSplit envFile).1
        = ReadInConfigResult.configFileNotFoundError msg →
      LoadConfiguration w defaultConfigFile
        = Except.error (String.append "fatal error config file: " msg)) ∧
    (w.lookupEnv = none →
      w.readInConfig defaultConfigFile "."
        = ReadInConfigResult.configFileNotFoundError msg →
      w.unmarshalEnvOnly = Except.ok cfg →
      LoadConfiguration w defaultConfigFile = Except.ok cfg) := by
  constructor
  · intro hEnv hRead
    simp [LoadConfiguration, hEnv, hRead]
  · intro hEnv hRead hUn
    simp [LoadConfiguration, hEnv, hRead, hUn]

/-- C10 witness: in the world where the environment variable names the
missing file of the configuration tests, LoadConfiguration fails with the
wrapped not-found message even though reading the default config file is
also available. -/
theorem LoadConfiguration_missing_file_asymmetry_witness :
    LoadConfiguration missingEnvFileWorld "config"
      = Except.error (String.append "fatal error config file: " notFoundMsg) :=
  (LoadConfiguration_missing_file_asymmetry missingEnvFileWorld
    "config" "non existing file" notFoundMsg emptyConfigStruct).1 rfl rfl

end InsightsKafkaMonitor
